import Mathlib

/-!
Verification of the Farmchain soil-report pipeline.

This file is a shallow embedding, in Lean 4, of the deterministic core of the
repository: the agricultural configuration tables and helpers
(agricultural_config.py), the rule-based soil-report parser, threshold
categorizer, recommendation filter, explainer and orchestrator
(soil_ai_module.py), and the stdin/stdout API wrapper (soil_ai_api.py).

Conventions used throughout:
  * Python floats are modelled as rationals.
  * Python dicts with dynamic string keys are modelled as association lists
    (List (String × _)) with first-match lookup and in-place update, matching
    Python dict insertion-order semantics.
  * Fallible Python code (raising exceptions) is modelled with Except.
  * Calls to the external LLM services are modelled by explicit inputs: a
    response value (or none, standing for a service exception) is supplied per
    call site, so theorems can quantify over all service behaviours.
-/

set_option maxRecDepth 100000

namespace Farmchain

/-! ## agricultural_config.py: thresholds and crop data -/

/-- Rational comparison a < b, decided by integer cross-multiplication
(denominators of normalized rationals are positive).  Python float
comparisons are modelled by exact rational comparisons. -/
def qlt (a b : ℚ) : Bool := decide (a.num * (b.den : ℤ) < b.num * (a.den : ℤ))

/-- Rational comparison a ≤ b, decided by integer cross-multiplication. -/
def qle (a b : ℚ) : Bool := decide (a.num * (b.den : ℤ) ≤ b.num * (a.den : ℤ))

/-- Rational addition computed through mkRat (equal to the field addition;
spelled out so that concrete values evaluate). -/
def qadd (a b : ℚ) : ℚ := mkRat (a.num * b.den + b.num * a.den) (a.den * b.den)

/-- Rational subtraction computed through mkRat. -/
def qsub (a b : ℚ) : ℚ := mkRat (a.num * b.den - b.num * a.den) (a.den * b.den)

/-- Rational division for a positive divisor, computed through mkRat. -/
def qdivPos (a b : ℚ) : ℚ := mkRat (a.num * b.den) (a.den * b.num.natAbs)

/-- Absolute value of a rational, computed through mkRat. -/
def qabs (a : ℚ) : ℚ := mkRat a.num.natAbs a.den

/-- Maximum of two rationals using the boolean comparison. -/
def qmax (a b : ℚ) : ℚ := if qle a b then b else a

/-- Minimum of two rationals using the boolean comparison. -/
def qmin (a b : ℚ) : ℚ := if qle a b then a else b

/-- Soil thresholds table, transcribed from SOIL_THRESHOLDS in
agricultural_config.py.  Each parameter maps to an ordered list of
(category, min, max) closed ranges. -/
def SOIL_THRESHOLDS : List (String × List (String × ℚ × ℚ)) :=
  [ ("Nitrogen", [("Low", (0, 199)), ("Medium", (200, 280)), ("High", (281, 10000))]),
    ("Phosphorus", [("Low", (0, 9)), ("Medium", (10, 25)), ("High", (26, 10000))]),
    ("Potassium", [("Low", (0, 109)), ("Medium", (110, 280)), ("High", (281, 10000))]),
    ("Organic Carbon",
      [("Poor", (0, mkRat 39 100)), ("Medium", (mkRat 4 10, mkRat 75 100)),
       ("Rich", (mkRat 76 100, 100))]) ]

/-- KHARIF_CROPS from agricultural_config.py. -/
def KHARIF_CROPS : List String :=
  ["Soybean", "Tur", "Cotton", "Maize", "Rice", "Bajra", "Jowar", "Groundnut", "Sugarcane"]

/-- RABI_CROPS from agricultural_config.py. -/
def RABI_CROPS : List String :=
  ["Wheat", "Gram", "Onion", "Tomato", "Potato", "Mustard", "Sunflower", "Garlic",
   "Fenugreek", "Coriander"]

/-- SUMMER_CROPS from agricultural_config.py. -/
def SUMMER_CROPS : List String :=
  ["Watermelon", "Muskmelon", "Cucumber", "Bitter Gourd", "Okra"]

/-- SEASON_CROPS from agricultural_config.py. -/
def SEASON_CROPS : List (String × List String) :=
  [("Kharif", KHARIF_CROPS), ("Rabi", RABI_CROPS), ("Summer", SUMMER_CROPS)]

/-- HIGH_INPUT_CROPS from agricultural_config.py. -/
def HIGH_INPUT_CROPS : List String := ["Onion", "Sugarcane", "Banana", "Cotton"]

/-- ASCII lower-casing of one character (what Python str.lower does on the
ASCII inputs this model handles; Devanagari has no case). -/
def asciiLower (c : Char) : Char :=
  if 'A' ≤ c && c ≤ 'Z' then Char.ofNat (c.toNat + 32) else c

/-- ASCII upper-casing of one character. -/
def asciiUpper (c : Char) : Char :=
  if 'a' ≤ c && c ≤ 'z' then Char.ofNat (c.toNat - 32) else c

/-- Lower-case a string (ASCII range only). -/
def lowerStr (s : String) : String := String.mk (s.data.map asciiLower)

/-- Python str.capitalize: first character upper-cased, the rest lower-cased. -/
def capitalizeStr (s : String) : String :=
  match s.data with
  | [] => ""
  | c :: rest => String.mk (asciiUpper c :: rest.map asciiLower)

/-- Whitespace characters of Python's regex class backslash-s. -/
def isWS (c : Char) : Bool :=
  c = ' ' || c = '\t' || c = '\n' || c = '\r' || c = '\x0b' || c = '\x0c'

/-- Python str.strip on a character list. -/
def stripChars (cs : List Char) : List Char :=
  ((cs.dropWhile isWS).reverse.dropWhile isWS).reverse

/-- Lower-cased, stripped form of a string, as computed by
str(param).strip().lower() in categorize_from_thresholds. -/
def lowerTrim (s : String) : String :=
  String.mk ((stripChars s.data).map asciiLower)

/-- categorize_ph from agricultural_config.py.  Raises (Except.error) for a
value outside 0..14, mirroring the ValueError in the source. -/
def categorize_ph (v : ℚ) : Except String String :=
  if qlt v 0 || qlt 14 v then
    .error "Invalid pH value. pH must be between 0 and 14."
  else if qlt v (mkRat 65 10) then .ok "Acidic"
  else if qle v (mkRat 75 10) then .ok "Neutral"
  else .ok "Alkaline"

/-- First threshold range (category, min, max) containing the value, scanning
the ranges in table order, as the for-loops over threshold dicts do. -/
def firstRange (v : ℚ) : List (String × ℚ × ℚ) → Option (String × ℚ × ℚ)
  | [] => none
  | (cat, mn, mx) :: rest =>
    if qle mn v && qle v mx then some (cat, mn, mx) else firstRange v rest

/-- get_crop_list_for_season from agricultural_config.py; Except.error models
the ValueError for an unknown season. -/
def get_crop_list_for_season (season : String) : Except String (List String) :=
  match SEASON_CROPS.lookup season with
  | some l => .ok l
  | none => .error "Unknown season"

/-- is_crop_in_season from agricultural_config.py: case-insensitive membership
in the season's crop list; an unknown season yields false (the caught
ValueError). -/
def is_crop_in_season (crop season : String) : Bool :=
  match get_crop_list_for_season season with
  | .ok l => (l.map lowerStr).contains (lowerStr crop)
  | .error _ => false

/-- validate_crops_for_season from agricultural_config.py.  An empty crop list
or empty season string is invalid (Python falsiness of [] and ""). -/
def validate_crops_for_season (crops : List String) (season : String) : Bool :=
  if crops = [] ∨ season = "" then false
  else crops.all (fun c => is_crop_in_season c season)

/-- should_filter_crop from agricultural_config.py: a crop is dropped when it
is (exact, case-sensitive) in HIGH_INPUT_CROPS and nitrogen is Low or organic
carbon is Poor. -/
def should_filter_crop (crop nitrogen_category organic_carbon_category : String) : Bool :=
  if ¬ HIGH_INPUT_CROPS.contains crop then false
  else nitrogen_category = "Low" ∨ organic_carbon_category = "Poor"

/-- DISCLAIMER_EN from agricultural_config.py. -/
def DISCLAIMER_EN : String :=
  "This recommendation is based on soil reports, district conditions, and standard agriculture guidelines. Please consult your local agriculture officer for final decisions."

/-- DISCLAIMER_MR from agricultural_config.py. -/
def DISCLAIMER_MR : String :=
  "हा सल्ला माती अहवाल, जिल्ह्याची परिस्थिती व मानक कृषी मार्गदर्शक तत्वांवर आधारित आहे. अंतिम निर्णयासाठी स्थानिक कृषी अधिकाऱ्यांचा सल्ला घ्यावा."

/-- DISCLAIMERS lookup table from agricultural_config.py. -/
def DISCLAIMERS : List (String × String) :=
  [("english", DISCLAIMER_EN), ("marathi", DISCLAIMER_MR),
   ("en", DISCLAIMER_EN), ("mr", DISCLAIMER_MR)]

/-- get_disclaimer from agricultural_config.py: dictionary lookup on the
lower-cased language, defaulting to English. -/
def get_disclaimer (language : String) : String :=
  (DISCLAIMERS.lookup (lowerStr language)).getD DISCLAIMER_EN

/-! ## soil_ai_module.py: categorize_from_thresholds -/

/-- Round-half-even of a rational to an integer (model of Python round on the
exact rational value; the claims never depend on rounded confidences). -/
def roundHalfEven (x : ℚ) : ℤ :=
  let f := x.floor
  let r := qsub x (mkRat f 1)
  if qlt r (mkRat 1 2) then f
  else if qlt (mkRat 1 2) r then f + 1
  else if 2 ∣ f then f else f + 1

/-- Rounding to two decimal places, model of Python round(c, 2). -/
def round2 (q : ℚ) : ℚ := mkRat (roundHalfEven (mkRat (q.num * 100) q.den)) 100

/-- Parameter-name normalization table key_map inside
categorize_from_thresholds (soil_ai_module.py lines 204-213).  The source
also lists the key pH in original case; the lookup key is always
lower-cased first, so only the lower-case entry can match, but the entry is
kept for fidelity. -/
def thresholds_key_map : List (String × String) :=
  [("ph", "pH"), ("pH", "pH"), ("nitrogen", "Nitrogen"), ("phosphorus", "Phosphorus"),
   ("potassium", "Potassium"), ("organic carbon", "Organic Carbon"),
   ("organiccarbon", "Organic Carbon"), ("organic_carbon", "Organic Carbon")]

/-- The normalized threshold lookup key of a parameter name
(soil_ai_module.py line 215). -/
def thresholdsLookupKey (param : String) : String :=
  (thresholds_key_map.lookup (lowerTrim param)).getD param

/-- categorize_from_thresholds from soil_ai_module.py (lines 199-240):
deterministic, rule-based categorization.  Returns (category, confidence);
a missing value, unknown parameter, out-of-range pH or a value in a gap of
the threshold table yields ("Unknown", 0). -/
def categorize_from_thresholds (param : String) (value : Option ℚ) : String × ℚ :=
  match value with
  | none => ("Unknown", 0)
  | some v =>
    if thresholdsLookupKey param = "pH" then
      match categorize_ph v with
      | .ok cat => (cat, mkRat 95 100)
      | .error _ => ("Unknown", 0)
    else
      match SOIL_THRESHOLDS.lookup (thresholdsLookupKey param) with
      | none => ("Unknown", 0)
      | some tbl =>
        match firstRange v tbl with
        | none => ("Unknown", 0)
        | some (cat, mn, mx) =>
          let span := qsub mx mn
          if qlt 0 span then
            let midpoint := qdivPos (qadd mn mx) 2
            let proximity := qmax 0 (qmin (qsub 1 (qdivPos (qabs (qsub v midpoint)) span)) 1)
            (cat, round2 (qadd (mkRat 85 100) (qdivPos proximity 10)))
          else (cat, mkRat 9 10)

/-- Whether a value is covered by the threshold table of a parameter: pH in
the 0..14 range, other parameters inside one of the listed ranges.  Values
outside (including the gaps the tables leave between consecutive ranges,
such as Nitrogen strictly between 199 and 200) are not covered. -/
def thresholdCovered (param : String) (v : ℚ) : Bool :=
  if thresholdsLookupKey param = "pH" then !(qlt v 0 || qlt 14 v)
  else
    match SOIL_THRESHOLDS.lookup (thresholdsLookupKey param) with
    | none => false
    | some tbl => (firstRange v tbl).isSome

/-! ## Data model: extracted readings and profile entries -/

/-- One extracted reading, modelling the per-parameter dicts produced by
hard_parse_soil_values and the missing-parameter fill in process_soil_report.
Optional fields model dict keys that are present only on some shapes. -/
structure ExtractedEntry where
  value : Option ℚ
  unit : Option String
  source : String
  unit_uncertain : Option Bool
  category : Option String
  category_hint : Option String
deriving DecidableEq, Repr

/-- The reading inserted for a parameter that was not found:
value None, source missing (process_soil_report lines 2046-2051). -/
def missingEntry : ExtractedEntry :=
  ⟨none, none, "missing", none, none, none⟩

/-- A numeric reading taken from the report text. -/
def reportValueEntry (v : ℚ) (unit : String) : ExtractedEntry :=
  ⟨some v, some unit, "report", some false, none, none⟩

/-- One soil-profile entry: the per-parameter dicts of a soil_profile. -/
structure ProfileEntry where
  category : String
  confidence : ℚ
  value : Option ℚ
  unit : Option String
  source : Option String
deriving DecidableEq, Repr

/-- Profile entry carrying only category and confidence (the shape written by
the AI-override and enforcement passes in classify_soil_profile). -/
def catEntry (category : String) (confidence : ℚ) : ProfileEntry :=
  ⟨category, confidence, none, none, none⟩

/-- Python dict assignment on an association list: replace the first binding
of the key in place, or append a new binding. -/
def dictSet (k : String) (v : α) : List (String × α) → List (String × α)
  | [] => [(k, v)]
  | (k2, v2) :: rest =>
    if k2 = k then (k, v) :: rest else (k2, v2) :: dictSet k v rest

/-! ## Rule-based parser: hard_parse_soil_values

The regex patterns of hard_parse_soil_values (soil_ai_module.py lines
423-528) are embedded as explicit scanning functions over the character
list of the (ASCII-lower-cased) text.  re.IGNORECASE matching of these
ASCII patterns over the raw text is equivalent to case-sensitive matching
over the lower-cased text, and every capture used downstream is
case-normalized by the source itself.  Lazy and greedy quantifier semantics
and leftmost search are reproduced, as noted on each function. -/

/-- Match a literal character sequence, returning the rest of the input. -/
def lit : List Char → List Char → Option (List Char)
  | [], cs => some cs
  | _, [] => none
  | l :: ls, c :: cs => if c = l then lit ls cs else none

/-- Greedily consume regex whitespace (the pattern fragment backslash-s
star).  No backtracking is needed in the embedded patterns because no
whitespace character can begin what follows the fragment. -/
def wsMany : List Char → List Char
  | [] => []
  | c :: cs => if isWS c then wsMany cs else c :: cs

/-- Consume at least one whitespace character then any further whitespace
(the pattern fragment backslash-s plus). -/
def wsSome : List Char → Option (List Char)
  | [] => none
  | c :: cs => if isWS c then some (wsMany cs) else none

/-- Greedily consume a run of ASCII digits. -/
def digitsRun : List Char → List Char × List Char
  | [] => ([], [])
  | c :: cs =>
    if c.isDigit then
      let (d, r) := digitsRun cs
      (c :: d, r)
    else ([], c :: cs)

/-- Match one or more digits (the pattern fragment 0-9 plus). -/
def digitsSome (cs : List Char) : Option (List Char × List Char) :=
  let (d, r) := digitsRun cs
  if d = [] then none else some (d, r)

/-- Numeric value of a digit string. -/
def digitsToNat (ds : List Char) : ℕ :=
  ds.foldl (fun n c => 10 * n + (c.toNat - 48)) 0

/-- Rational value of an integer part and a fractional digit part, the exact
value of the float Python parses from the capture. -/
def ratOfParts (ip fp : List Char) : ℚ :=
  mkRat (digitsToNat ip * 10 ^ fp.length + digitsToNat fp) (10 ^ fp.length)

/-- Match the fragment 0-9 plus, then a dot, then 0-9 plus (the pH capture
group).  Greedy digit runs need no backtracking: shortening a run only
exposes another digit, which matches neither the dot nor what follows. -/
def matchDotNum (cs : List Char) : Option (ℚ × List Char) :=
  match digitsSome cs with
  | none => none
  | some (ip, r1) =>
    match r1 with
    | '.' :: r2 =>
      match digitsSome r2 with
      | none => none
      | some (fp, r3) => some (ratOfParts ip fp, r3)
    | _ => none

/-- Match the fragment 0-9 plus, optional dot, 0-9 star (the numeric capture
of the nutrient patterns; a trailing bare dot parses as an integer, as
Python float does). -/
def matchNum (cs : List Char) : Option (ℚ × List Char) :=
  match digitsSome cs with
  | none => none
  | some (ip, r1) =>
    match r1 with
    | '.' :: r2 =>
      let (fp, r3) := digitsRun r2
      some (ratOfParts ip fp, r3)
    | _ => some (ratOfParts ip [], r1)

/-- Lazy bounded gap: the fragment matching up to k characters other than
newline or carriage return, shortest first (a lazy counted quantifier),
then the continuation. -/
def lazyGap (k : ℕ) (tryTail : List Char → Option α) (cs : List Char) : Option α :=
  match tryTail cs with
  | some a => some a
  | none =>
    match k, cs with
    | Nat.succ k2, c :: rest =>
      if c = '\n' || c = '\r' then none else lazyGap k2 tryTail rest
    | _, _ => none

/-- Greedy unbounded gap: the fragment matching any characters other than
newline or carriage return, longest first, then the continuation. -/
def greedyGap (tryTail : List Char → Option α) : List Char → Option α
  | [] => tryTail []
  | c :: rest =>
    if c = '\n' || c = '\r' then tryTail (c :: rest)
    else
      match greedyGap tryTail rest with
      | some a => some a
      | none => tryTail (c :: rest)

/-- Alternation low, medium, high, in source order (the alternatives start
with distinct characters, so no backtracking across them is possible). -/
def matchLMH (cs : List Char) : Option (String × List Char) :=
  match lit "low".data cs with
  | some r => some ("low", r)
  | none =>
    match lit "medium".data cs with
    | some r => some ("medium", r)
    | none =>
      match lit "high".data cs with
      | some r => some ("high", r)
      | none => none

/-- Word-boundary test after a match: the next character is not a word
character.  (Python treats any Unicode word character here; the modelled
report texts are ASCII at these positions.) -/
def atWordBoundary : List Char → Bool
  | [] => true
  | c :: _ => ¬(c.isAlphanum || c = '_')

/-- Leftmost search: try the pattern at every start position, earliest
first, as re.search does. -/
def searchAt (tryAt : List Char → Option α) : List Char → Option α
  | [] => tryAt []
  | c :: cs =>
    match tryAt (c :: cs) with
    | some a => some a
    | none => searchAt tryAt cs

/-- The pH pattern of hard_parse_soil_values: literal ph, optional
whitespace, then digits dot digits.  Note the pattern accepts no colon or
dash between ph and the number. -/
def tryPHPattern (cs : List Char) : Option ℚ :=
  match lit "ph".data cs with
  | none => none
  | some r1 => (matchDotNum (wsMany r1)).map Prod.fst

/-- Common prefix of the nutrient patterns: literal available, whitespace,
then the nutrient name. -/
def matchAvailable (name : List Char) (cs : List Char) : Option (List Char) :=
  match lit "available".data cs with
  | none => none
  | some r1 =>
    match wsSome r1 with
    | none => none
    | some r2 => lit name r2

/-- Unit alternation kg/ha or kg whitespace ha, in source order. -/
def matchKgHa (cs : List Char) : Option (List Char) :=
  match lit "kg/ha".data cs with
  | some r => some r
  | none =>
    match lit "kg".data cs with
    | none => none
    | some r => lit "ha".data (wsMany r)

/-- The Nitrogen numeric pattern: available nitrogen, a lazy gap of at most
50 non-newline characters, a number, optional whitespace, then kg/ha or
kg ha. -/
def tryNitrogenValue (cs : List Char) : Option ℚ :=
  match matchAvailable "nitrogen".data cs with
  | none => none
  | some r =>
    lazyGap 50 (fun cs2 =>
      match matchNum cs2 with
      | none => none
      | some (v, r2) => (matchKgHa (wsMany r2)).map (fun _ => v)) r

/-- The Nitrogen category pattern: available nitrogen, an optional
parenthesised n, a lazy gap of at most 40 non-newline characters, then
low, medium or high at a word boundary.  The greedy optional group is
tried first with the group, then without. -/
def tryNitrogenCat (cs : List Char) : Option String :=
  match matchAvailable "nitrogen".data cs with
  | none => none
  | some r =>
    let tryTail := fun r2 =>
      lazyGap 40 (fun cs2 =>
        match matchLMH cs2 with
        | some (cat, r3) => if atWordBoundary r3 then some cat else none
        | none => none) r2
    match lit "(n)".data (wsMany r) with
    | some r2 =>
      match tryTail r2 with
      | some a => some a
      | none => tryTail r
    | none => tryTail r

/-- A nutrient numeric pattern with a lazy gap of at most 80 non-newline
characters and a fixed unit literal (used for Phosphorus and Potassium with
kg/ha, and for Organic Carbon with the percent sign). -/
def tryNutrientValue (name unitLit : List Char) (cs : List Char) : Option ℚ :=
  match matchAvailable name cs with
  | none => none
  | some r =>
    lazyGap 80 (fun cs2 =>
      match matchNum cs2 with
      | none => none
      | some (v, r2) => (lit unitLit (wsMany r2)).map (fun _ => v)) r

/-- The Organic Carbon numeric pattern: literal organic carbon, a lazy gap
of at most 80 non-newline characters, a number, optional whitespace, then
the percent sign. -/
def tryOrganicCarbonValue (cs : List Char) : Option ℚ :=
  match lit "organic".data cs with
  | none => none
  | some r1 =>
    match wsSome r1 with
    | none => none
    | some r2 =>
      match lit "carbon".data r2 with
      | none => none
      | some r =>
        lazyGap 80 (fun cs2 =>
          match matchNum cs2 with
          | none => none
          | some (v, r3) => (lit "%".data (wsMany r3)).map (fun _ => v)) r

/-- The Organic Carbon category pattern: literal organic carbon, a greedy
unbounded gap of non-newline characters, then low, medium or high (no word
boundary in this pattern). -/
def tryOrganicCarbonCat (cs : List Char) : Option String :=
  match lit "organic".data cs with
  | none => none
  | some r1 =>
    match wsSome r1 with
    | none => none
    | some r2 =>
      match lit "carbon".data r2 with
      | none => none
      | some r => greedyGap (fun cs2 => (matchLMH cs2).map Prod.fst) r

/-- Extracted readings keyed by the five canonical parameter names used by
process_soil_report (note the OrganicCarbon spelling, without a space). -/
structure Extracted where
  pH : Option ExtractedEntry
  Nitrogen : Option ExtractedEntry
  Phosphorus : Option ExtractedEntry
  Potassium : Option ExtractedEntry
  OrganicCarbon : Option ExtractedEntry
deriving DecidableEq, Repr

/-- Mapping of the low, medium, high capture to the Organic Carbon category
vocabulary (hard_parse_soil_values lines 504-509). -/
def ocCategoryOfCapture (cat : String) : String :=
  if cat = "low" then "Poor"
  else if cat = "medium" then "Moderate"
  else if cat = "high" then "Rich"
  else capitalizeStr cat

/-- hard_parse_soil_values from soil_ai_module.py (lines 423-528): the
rule-based Soil Health Card parser used by the active pipeline.  It runs on
the raw report text (no normalization), one regex per parameter as embedded
above. -/
def hard_parse_soil_values (text : String) : Extracted :=
  let cs := text.data.map asciiLower
  let ph := (searchAt tryPHPattern cs).map (fun v => reportValueEntry v "")
  let nitrogen :=
    match searchAt tryNitrogenValue cs with
    | some v => some (reportValueEntry v "kg/ha")
    | none =>
      match searchAt tryNitrogenCat cs with
      | some cat => some ⟨none, none, "report", none, none, some (capitalizeStr cat)⟩
      | none => none
  let phosphorus :=
    (searchAt (tryNutrientValue "phosphorus".data "kg/ha".data) cs).map
      (fun v => reportValueEntry v "kg/ha")
  let potassium :=
    (searchAt (tryNutrientValue "potassium".data "kg/ha".data) cs).map
      (fun v => reportValueEntry v "kg/ha")
  let organicCarbon :=
    match searchAt tryOrganicCarbonCat cs with
    | some cat => some ⟨none, none, "report", none, some (ocCategoryOfCapture cat), none⟩
    | none =>
      match searchAt tryOrganicCarbonValue cs with
      | some v =>
        if qle 0 v && qle v (mkRat 15 10) then some (reportValueEntry v "%") else none
      | none => none
  ⟨ph, nitrogen, phosphorus, potassium, organicCarbon⟩

/-- Extracted readings after the missing-parameter fill of
process_soil_report (lines 2046-2051): every parameter present. -/
structure Extracted5 where
  pH : ExtractedEntry
  Nitrogen : ExtractedEntry
  Phosphorus : ExtractedEntry
  Potassium : ExtractedEntry
  OrganicCarbon : ExtractedEntry
deriving DecidableEq, Repr

/-- The missing-parameter fill of process_soil_report (lines 2046-2051). -/
def fillMissing (e : Extracted) : Extracted5 :=
  ⟨e.pH.getD missingEntry, e.Nitrogen.getD missingEntry,
   e.Phosphorus.getD missingEntry, e.Potassium.getD missingEntry,
   e.OrganicCarbon.getD missingEntry⟩

/-! ## Threshold-based soil profile construction (process_soil_report) -/

/-- The profile entry written for a parameter without a measured value
(process_soil_report lines 2080-2093). -/
def unknownProfileEntry : ProfileEntry := ⟨"Unknown", 0, none, none, some "missing"⟩

/-- One profile entry of the threshold-based categorization loop of
process_soil_report (lines 2063-2093): a measured numeric reading is
categorized by categorize_from_thresholds, anything else becomes Unknown. -/
def buildProfileEntry (param : String) (d : ExtractedEntry) : ProfileEntry :=
  match d.value with
  | some v =>
    if d.source = "report" then
      let r := categorize_from_thresholds param (some v)
      ⟨r.1, r.2, some v, some (d.unit.getD ""), some "report"⟩
    else unknownProfileEntry
  | none => unknownProfileEntry

/-- The soil profile dict built by process_soil_report (lines 2061-2093),
keyed by the five canonical parameter names in insertion order. -/
def build_soil_profile (e : Extracted5) : List (String × ProfileEntry) :=
  [("pH", buildProfileEntry "pH" e.pH),
   ("Nitrogen", buildProfileEntry "Nitrogen" e.Nitrogen),
   ("Phosphorus", buildProfileEntry "Phosphorus" e.Phosphorus),
   ("Potassium", buildProfileEntry "Potassium" e.Potassium),
   ("OrganicCarbon", buildProfileEntry "OrganicCarbon" e.OrganicCarbon)]

/-- Category of a parameter in a profile dict, defaulting to Unknown, the
lookup idiom used throughout soil_ai_module.py. -/
def profCat (sp : List (String × ProfileEntry)) (k : String) : String :=
  match sp.lookup k with
  | some e => e.category
  | none => "Unknown"

/-- The Organic Carbon lookup idiom of soil_ai_module.py (lines 1368-1369,
1582-1583): the dict is read under the key Organic Carbon, falling back to
Organic_Carbon, and the category defaults to Unknown.  The canonical
pipeline key OrganicCarbon (no space) is NOT consulted. -/
def ocProfCat (sp : List (String × ProfileEntry)) : String :=
  match sp.lookup "Organic Carbon" with
  | some e => e.category
  | none =>
    match sp.lookup "Organic_Carbon" with
    | some e => e.category
    | none => "Unknown"

/-! ## Substring test (used by the explainer safety check) -/

/-- Test whether the second list is an initial segment of the first. -/
def beginsWith : List Char → List Char → Bool
  | _, [] => true
  | [], _ :: _ => false
  | c :: cs, d :: ds => c = d && beginsWith cs ds

/-- Substring scan over character lists, testing every suffix. -/
def containsSub : List Char → List Char → Bool
  | cs, ns =>
    if beginsWith cs ns then true
    else
      match cs with
      | [] => false
      | _ :: rest => containsSub rest ns

/-- Substring test on strings (Python in-operator on str). -/
def containsSubstr (hay needle : String) : Bool :=
  containsSub hay.data needle.data

/-! ## Recommender: generate_agronomy_recommendations

The external recommendation service is modelled by a function from the
attempt number to an optional response: none stands for a call-site
exception (service failure, malformed JSON), some r for a syntactically
valid parsed JSON object.  The response carries the crop list (when the
keys crop_recommendation and primary are present) and whether the raw
response matches the numeric-soil-value patterns that
validate_no_numeric_values_in_response rejects.  Fertilizer, equipment and
duration fields are cosmetic passthrough (lines 1412-1528) and cannot
affect the error or crop behaviour this file reasons about, so they are
not carried. -/

/-- A parsed response of the AI recommendation service. -/
structure RecResponse where
  crop_primary : Option (List String)
  has_numeric_soil_values : Bool
deriving DecidableEq, Repr

/-- The crop_recommendation object of a recommendation result. -/
structure CropRec where
  primary : List String
  season : String
deriving DecidableEq, Repr

/-- A result dict returned by generate_agronomy_recommendations: an error
result carries an error message; a success may carry a
crop_recommendation. -/
structure RecResult where
  error : Option String
  crop_recommendation : Option CropRec
deriving DecidableEq, Repr

/-- MARATHI_CROP_MAP from soil_ai_module.py (lines 89-114). -/
def MARATHI_CROP_MAP : List (String × String) :=
  [("गहू", "Wheat"), ("मसूर", "Gram"), ("सोयाबीन", "Soybean"), ("तुर", "Tur"),
   ("कपास", "Cotton"), ("मक्का", "Maize"), ("धान", "Rice"), ("बाजरा", "Bajra"),
   ("ज्वार", "Jowar"), ("मूंगफली", "Groundnut"), ("गन्ना", "Sugarcane"),
   ("तरबूज", "Watermelon"), ("खरबूजा", "Muskmelon"), ("काकडी", "Cucumber"),
   ("करली", "Bitter Gourd"), ("भिंडी", "Okra"), ("प्याज", "Onion"),
   ("टोमॅटो", "Tomato"), ("बटाटा", "Potato"), ("सरसों", "Mustard"),
   ("सूर्यफूल", "Sunflower"), ("लसूण", "Garlic"), ("मेथी", "Fenugreek"),
   ("धनिया", "Coriander")]

/-- ENGLISH_CROP_MAP: the reversed dictionary (line 117). -/
def ENGLISH_CROP_MAP : List (String × String) :=
  MARATHI_CROP_MAP.map (fun p => (p.2, p.1))

/-- translate_crop_name_to_english from soil_ai_module.py (lines 120-122). -/
def translate_crop_name_to_english (c : String) : String :=
  (MARATHI_CROP_MAP.lookup c).getD c

/-- The is_marathi test of generate_agronomy_recommendations (lines
1205-1206): language, lower-cased and stripped, is marathi in Latin or
Devanagari script. -/
def isMarathiLang (language : String) : Bool :=
  lowerTrim language = "marathi" || lowerTrim language = "मराठी"

/-- One attempt of the retry loop of generate_agronomy_recommendations
(lines 1336-1544), given this attempt's service response.  The outcome is
either a final result or a signal to retry. -/
inductive AttemptOutcome where
  | done (r : RecResult)
  | retry (lastResult : RecResult)
deriving DecidableEq, Repr

/-- Body of one attempt of generate_agronomy_recommendations.  A service
exception, a numeric-value safety violation or the fail-fast check raise
inside the try and are caught at line 1531: on the last attempt the caught
message becomes an error result, otherwise the loop retries.  Season
validation failure retries directly, returning a season error result when
retries are exhausted (lines 1400-1407).

The fail-fast check (lines 1394-1397) tests the PRE-filter crop list
crops_for_validation, so it fires whenever the AI list contains any
fertility-incompatible crop, including crops the filter just removed; when
it fires, the already-filtered primary list is discarded with the raised
exception.  When it does not fire the filter removed nothing, so the
primary list returned is the original response list (Marathi output) or
its English translation (lines 1429-1435). -/
def recFail (isLast : Bool) (msg : String) : AttemptOutcome :=
  if isLast then .done ⟨some msg, none⟩ else .retry ⟨some msg, none⟩

/-- The crop handling of one attempt (lines 1359-1410), given the primary
crop list of the response.  The crop list translated to English is written
out at each of its three uses (the source binds it once as
crops_for_validation). -/
def recCrops (sp : List (String × ProfileEntry)) (season language : String)
    (crops : List String) (isLast : Bool) : AttemptOutcome :=
  if (crops.map translate_crop_name_to_english).filter
      (fun c => should_filter_crop c (profCat sp "Nitrogen") (ocProfCat sp)) ≠ [] then
    recFail isLast "FAIL-FAST: High-input crops not filtered"
  else if ¬ validate_crops_for_season (crops.map translate_crop_name_to_english) season then
    if isLast then
      .done ⟨some ("Crop recommendations do not match season " ++ season), none⟩
    else .retry ⟨some ("Crop recommendations do not match season " ++ season), none⟩
  else
    .done ⟨none, some ⟨(if isMarathiLang language then crops
      else crops.map translate_crop_name_to_english), season⟩⟩

def recAttempt (sp : List (String × ProfileEntry)) (season language : String)
    (resp : Option RecResponse) (isLast : Bool) : AttemptOutcome :=
  match resp with
  | none => recFail isLast "recommendation service call failed"
  | some r =>
    if r.has_numeric_soil_values then
      recFail isLast "AI SAFETY VIOLATION in generate_agronomy_recommendations"
    else
      match r.crop_primary with
      | none => .done ⟨none, none⟩
      | some crops => recCrops sp season language crops isLast

/-- The retry loop: remaining is the number of attempts left; the loop-end
result (retries exhausted without a return, possible only when max_retries
is zero) is the error of line 1541. -/
def recLoop (sp : List (String × ProfileEntry)) (season language : String)
    (ai : ℕ → Option RecResponse) : (attempt remaining : ℕ) → RecResult
  | _, 0 => ⟨some "Failed to generate valid recommendations after retries", none⟩
  | attempt, Nat.succ rem =>
    match recAttempt sp season language (ai attempt) (rem = 0) with
    | .done r => r
    | .retry _ => recLoop sp season language ai (attempt + 1) rem

/-- generate_agronomy_recommendations from soil_ai_module.py (lines
1174-1544).  Missing district, season or irrigation gives an error result
(lines 1193-1197); an empty soil profile raises out of the function
(ValueError, line 1200). -/
def generate_agronomy_recommendations (sp : List (String × ProfileEntry))
    (district season irrigation_type : String) (soil_type : Option String)
    (language : String) (ai : ℕ → Option RecResponse) (max_retries : ℕ) :
    Except String RecResult :=
  if district = "" ∨ season = "" ∨ irrigation_type = "" then
    .ok ⟨some "District, season, and irrigation_type are required", none⟩
  else if sp = [] then
    .error "Soil profile missing - cannot generate recommendations."
  else
    .ok (recLoop sp season language ai 0 max_retries)

/-! ## Explainer: generate_farmer_explanation and the basic summary -/

/-- Result of generate_farmer_explanation: language, factual summary and
disclaimer (soil_ai_module.py lines 1645-1649). -/
structure FarmerExpl where
  language : String
  summary : String
  disclaimer : String
deriving DecidableEq, Repr

/-- Explanation sentences per parameter and the closing context sentence of
generate_farmer_explanation (lines 1586-1631). -/
def farmerExplanationParts (sp : List (String × ProfileEntry))
    (district season irrigation_type : String) : List String :=
  let pHc := profCat sp "pH"
  let nc := profCat sp "Nitrogen"
  let pc := profCat sp "Phosphorus"
  let kc := profCat sp "Potassium"
  let occ := ocProfCat sp
  (if pHc ≠ "Unknown" then ["Soil pH is " ++ lowerStr pHc ++ "."]
   else ["Soil pH data is not available. Soil testing is recommended."]) ++
  (if nc ≠ "Unknown" then
    ["Nitrogen levels are " ++ lowerStr nc ++ "."] ++
    (if nc = "Low" then ["Nutrient supplementation is required to improve soil fertility."]
     else if nc = "High" then ["Nitrogen levels are sufficient for crop growth."]
     else [])
   else ["Nitrogen data is not available. Soil testing is recommended."]) ++
  (if pc ≠ "Unknown" then
    (if pc = "Low" then ["Phosphorus levels are low and may require supplementation."]
     else if pc = "High" then ["Phosphorus levels are adequate."]
     else [])
   else []) ++
  (if kc ≠ "Unknown" then
    (if kc = "Low" then ["Potassium levels are low and may require supplementation."]
     else if kc = "High" then ["Potassium levels are adequate."]
     else [])
   else []) ++
  (if occ ≠ "Unknown" then
    (if occ = "Poor" then
      ["Soil organic carbon is poor, indicating low fertility. Soil improvement is advised."]
     else if occ = "Moderate" then ["Soil organic carbon is moderate."]
     else if occ = "Rich" then ["Soil organic carbon is rich, indicating good fertility."]
     else [])
   else []) ++
  ["This recommendation is for " ++ lowerStr season ++ " season with " ++
   lowerStr irrigation_type ++ " irrigation in " ++ district ++ " district."]

/-- generate_farmer_explanation from soil_ai_module.py (lines 1548-1649):
pure rule-based string assembly from the soil profile only.  The
agronomy_data argument is accepted, as in the source, and never read.
Raises (Except.error) on an empty profile (ValueError, line 1574) and on
the contradiction safety check (RuntimeError, lines 1636-1640). -/
def generate_farmer_explanation (agronomy_data : RecResult)
    (sp : List (String × ProfileEntry))
    (district season irrigation_type language : String) : Except String FarmerExpl :=
  if sp = [] then
    .error "soilProfile missing - cannot generate explanation."
  else
    let nc := profCat sp "Nitrogen"
    let explanation := String.intercalate " " (farmerExplanationParts sp district season irrigation_type)
    if nc = "Low" && containsSubstr (lowerStr explanation) "medium" &&
        containsSubstr (lowerStr explanation) "nitrogen" then
      .error "BUG: Explanation nitrogen text contradicts soil_profile category."
    else
      .ok ⟨language, explanation, get_disclaimer language⟩

/-- The basic rule-based summary built directly in process_soil_report
(lines 2095-2112), covering pH, Nitrogen, Phosphorus and Potassium only. -/
def basic_summary (sp : List (String × ProfileEntry)) : String :=
  let mk : String → (String → String) → List String := fun k sentence =>
    let c := profCat sp k
    if c ≠ "Unknown" then [sentence (lowerStr c)] else []
  let parts :=
    mk "pH" (fun c => "Soil pH is " ++ c ++ ".") ++
    mk "Nitrogen" (fun c => "Nitrogen levels are " ++ c ++ ".") ++
    mk "Phosphorus" (fun c => "Phosphorus levels are " ++ c ++ ".") ++
    mk "Potassium" (fun c => "Potassium levels are " ++ c ++ ".")
  if parts = [] then "Unable to extract soil parameters."
  else String.intercalate " " parts

/-! ## Categorizer: classify_soil_profile

classify_soil_profile (soil_ai_module.py lines 880-1168) is modelled for
the call shape its docstring and the extractor pair it with: the
extracted_params argument is the wrapper object produced by
extract_soil_parameters, whose extracted_parameters member is the flat
reading dict (line 894).  The AI classification service is modelled by the
parsed soil_profile object of a well-formed response: a dict of per
parameter category and confidence entries, with arbitrary (possibly
adversarial) contents.  Malformed responses (unparseable JSON, missing
soil_profile key, numeric values in the response text) take the caught
exception path of line 1160 and return an empty profile with an error
message; they carry no category at all, so the modelled well-formed shape
is the one on which the enforcement claim is informative. -/

/-- The pre-categorization performed before the AI call for one parameter
other than pH (lines 1003-1049): a numeric measured value is categorized
by the threshold table at confidence 0.95; a numeric value whose source is
not report keeps the threshold confidence; a missing value is skipped. -/
def preCatNonPH (param_key : String) (d : ExtractedEntry) : Option ProfileEntry :=
  match d.value with
  | none => none
  | some v =>
    if d.source = "report" then
      some (catEntry (categorize_from_thresholds param_key (some v)).1 (mkRat 95 100))
    else
      let r := categorize_from_thresholds param_key (some v)
      some (catEntry r.1 r.2)

/-- The pre-categorization of pH (lines 1011-1013 and 1035-1038): both the
measured and the non-measured numeric branch call categorize_ph directly at
confidence 0.95, and its ValueError for an out-of-range value propagates
out of classify_soil_profile, since the loop runs before the try block.
The re-check of lines 1028-1031 compares the category with a recomputation
of categorize_ph on the same value and never fires. -/
def preCatPH (d : ExtractedEntry) : Except String (Option ProfileEntry) :=
  match d.value with
  | none => .ok none
  | some v => do
    let cat ← categorize_ph v
    .ok (some (catEntry cat (mkRat 95 100)))

/-- Write one pre-categorized entry over the AI profile (one iteration of
the enforcement loop, lines 1113-1126; the Ollama output for the key is
overwritten unconditionally, and the subsequent verify-read of line 1125
sees the value just written, so it never raises). -/
def condSet (k : String) (o : Option ProfileEntry) (sp : List (String × ProfileEntry)) :
    List (String × ProfileEntry) :=
  match o with
  | some e => dictSet k (catEntry e.category e.confidence) sp
  | none => sp

/-- The additional Nitrogen, Phosphorus, Potassium enforcement pass (lines
1140-1157): for a measured numeric reading whose profile category differs
from the threshold category, the category is forced to the threshold
category at confidence 0.95. -/
def enforceNPK (extracted : List (String × ExtractedEntry)) (param : String)
    (sp : List (String × ProfileEntry)) : List (String × ProfileEntry) :=
  match extracted.lookup param with
  | none => sp
  | some d =>
    match d.value with
    | none => sp
    | some v =>
      if d.source = "report" then
        let expected := (categorize_from_thresholds param (some v)).1
        let actual := (sp.lookup param).map ProfileEntry.category
        if actual ≠ some expected then
          match sp.lookup param with
          | some e => dictSet param { e with category := expected, confidence := mkRat 95 100 } sp
          | none => dictSet param (catEntry expected (mkRat 95 100)) sp
        else sp
      else sp

/-- classify_soil_profile from soil_ai_module.py (lines 880-1168), for a
wrapper-shaped extracted_params whose inner reading dict is the extracted
argument and a well-formed AI response carrying the profile aiProfile.

After the AI call, the pH entry is overwritten from the optional
pre_categorized_soil_profile argument when that argument carries a pH key
(lines 1095-1100); the pH consistency checks of lines 1102-1111 look up
the key pH on the wrapper object, which has no such key, so they cannot
fire for this call shape.  The enforcement loop then overwrites every
pre-categorized parameter EXCEPT pH (lines 1113-1115), and the additional
pass re-enforces Nitrogen, Phosphorus and Potassium.  The dict
param_mappings lists the keys Organic Carbon and Organic_Carbon, both
reading the extracted key Organic Carbon and computing the same entry, so
the loop writes that entry under both profile keys. -/
def classify_soil_profile (extracted : List (String × ExtractedEntry))
    (district : String) (soil_type : Option String) (irrigation_type : String)
    (pre_categorized_soil_profile : Option (List (String × ProfileEntry)))
    (aiProfile : List (String × ProfileEntry)) :
    Except String (List (String × ProfileEntry)) :=
  match (match extracted.lookup "pH" with | some d => preCatPH d | none => .ok none) with
  | .error e => .error e
  | .ok _pcPH =>
    .ok (enforceNPK extracted "Potassium"
      (enforceNPK extracted "Phosphorus"
        (enforceNPK extracted "Nitrogen"
          (condSet "Organic_Carbon"
            ((extracted.lookup "Organic Carbon").bind (preCatNonPH "Organic Carbon"))
            (condSet "Organic Carbon"
              ((extracted.lookup "Organic Carbon").bind (preCatNonPH "Organic Carbon"))
              (condSet "Potassium"
                ((extracted.lookup "Potassium").bind (preCatNonPH "Potassium"))
                (condSet "Phosphorus"
                  ((extracted.lookup "Phosphorus").bind (preCatNonPH "Phosphorus"))
                  (condSet "Nitrogen"
                    ((extracted.lookup "Nitrogen").bind (preCatNonPH "Nitrogen"))
                    (match pre_categorized_soil_profile with
                     | some pcp =>
                       match pcp.lookup "pH" with
                       | some lph =>
                         dictSet "pH" (catEntry lph.category lph.confidence) aiProfile
                       | none => aiProfile
                     | none => aiProfile)))))))))

/-! ## Orchestrator: process_soil_report -/

/-- The explanation object of a pipeline response. -/
structure Explanation where
  summary : String
  disclaimer : String
  language : Option String
  advisory : Option String
deriving DecidableEq, Repr

/-- The behaviour of the external AI services during one request: the
recommendation service response per attempt, the advisory text (or none for
a failed generation) and the detailed-analysis outcome, which this file
treats as an abstract passthrough value since no modelled claim inspects it. -/
structure AIBehavior where
  recService : ℕ → Option RecResponse
  advisory : Option String
  detailed : Option String

/-- A pipeline response as assembled by process_soil_report; optional fields
model JSON keys present only on some paths. -/
structure PipelineResponse where
  success : Bool
  version : Option String
  extracted_parameters : Option Extracted5
  soil_profile : Option (List (String × ProfileEntry))
  explanation : Option Explanation
  recommendations : Option RecResult
  ai_detailed_analysis : Option String
  error : Option String
deriving Repr

/-- The fallback recommendations of process_soil_report (lines 2135-2141),
used when the recommender failed or returned an error result. -/
def fallbackRecommendations (season : String) : RecResult :=
  ⟨none, some ⟨[], season⟩⟩

/-- process_soil_report from soil_ai_module.py (lines 2017-2231): the
active pipeline.  Extraction and categorization are rule-based
(hard_parse_soil_values and categorize_from_thresholds); the AI services
are consulted only for recommendations, advisory and detailed analysis.

The returned advisory is never attached to the explanation: the source
guard at line 2172 calls advisory.get on a str, raising AttributeError,
which the surrounding except swallows; a none advisory short-circuits the
same guard.  The detailed-analysis stage always produces some dict
(placeholders on failure) and is carried abstractly. -/
def process_soil_report (report_text district : String) (soil_type : Option String)
    (irrigation_type season language : String) (ai : AIBehavior) : PipelineResponse :=
  if district = "" ∨ season = "" ∨ irrigation_type = "" then
    { success := false,
      version := some "farmchain-ai-v1.0",
      extracted_parameters := none,
      soil_profile := none,
      explanation := some ⟨"Required parameters are missing.", get_disclaimer language, none, none⟩,
      recommendations := none,
      ai_detailed_analysis := none,
      error := some "District, season, and irrigation_type are required" }
  else
    let extracted_params := fillMissing (hard_parse_soil_values report_text)
    let soil_profile := build_soil_profile extracted_params
    let summary := basic_summary soil_profile
    let recommendations :=
      match generate_agronomy_recommendations soil_profile district season
          irrigation_type soil_type language ai.recService 2 with
      | .error _ => fallbackRecommendations season
      | .ok r => if r.error.isSome then fallbackRecommendations season else r
    let explanation :=
      match generate_farmer_explanation recommendations soil_profile district
          season irrigation_type language with
      | .ok fe => (⟨fe.summary, fe.disclaimer, some fe.language, none⟩ : Explanation)
      | .error _ => ⟨summary, get_disclaimer language, none, none⟩
    { success := true,
      version := none,
      extracted_parameters := some extracted_params,
      soil_profile := some soil_profile,
      explanation := some explanation,
      recommendations := some recommendations,
      ai_detailed_analysis := ai.detailed,
      error := none }

/-! ## API wrapper: soil_ai_api.py -/

/-- categorize_soil_value from soil_ai_api.py (lines 8-32).  The value is
compared only inside the pH, EC and Organic Matter branches; there a None
value raises TypeError (None < float), modelled by the Except.error.  Any
other parameter returns Unknown without touching the value. -/
def categorize_soil_value (param_name : String) (value : Option ℚ) : Except String String :=
  if param_name = "pH" then
    match value with
    | none => .error "TypeError: unorderable comparison of NoneType and float"
    | some v =>
      .ok (if qlt v (mkRat 65 10) then "Low" else if qle v (mkRat 75 10) then "Medium" else "High")
  else if param_name = "EC" then
    match value with
    | none => .error "TypeError: unorderable comparison of NoneType and float"
    | some v =>
      .ok (if qlt v (mkRat 75 100) then "Low" else if qle v 2 then "Medium" else "High")
  else if param_name = "Organic Matter" then
    match value with
    | none => .error "TypeError: unorderable comparison of NoneType and float"
    | some v =>
      .ok (if qlt v 1 then "Low" else if qle v 3 then "Medium" else "High")
  else .ok "Unknown"

/-- Conversion of one extracted entry by convert_numeric_to_category
(soil_ai_api.py lines 34-43): every pipeline entry carries the value key,
so the conversion always runs; the numeric value is deleted and the
category installed. -/
def convertEntry (param_name : String) (e : ExtractedEntry) : Except String ExtractedEntry :=
  (categorize_soil_value param_name e.value).map
    (fun c => { e with category := some c, value := none })

/-- convert_numeric_to_category from soil_ai_api.py (lines 34-43), iterating
the extracted parameters in dict insertion order. -/
def convert_numeric_to_category (r : PipelineResponse) : Except String PipelineResponse :=
  match r.extracted_parameters with
  | none => .ok r
  | some e5 => do
    let ph ← convertEntry "pH" e5.pH
    let n ← convertEntry "Nitrogen" e5.Nitrogen
    let p ← convertEntry "Phosphorus" e5.Phosphorus
    let k ← convertEntry "Potassium" e5.Potassium
    let oc ← convertEntry "OrganicCarbon" e5.OrganicCarbon
    .ok { r with extracted_parameters := some ⟨ph, n, p, k, oc⟩ }

/-- The pair printed by the api entry point: the JSON written to stdout and
the process exit code. -/
structure ApiOutcome where
  printed : PipelineResponse
  exitCode : ℕ

/-- The error JSON of the api exception handler (soil_ai_api.py lines
70-80). -/
def apiErrorResponse (msg : String) : PipelineResponse :=
  { success := false,
    version := none,
    extracted_parameters := none,
    soil_profile := none,
    explanation := some ⟨"An error occurred while processing the soil report.", DISCLAIMER_EN, none, none⟩,
    recommendations := none,
    ai_detailed_analysis := none,
    error := some msg }

/-- Post-processing and printing of the api body: the successful conversion
is printed with exit code 0 after the ensure-explanation step (soil_ai_api.py
lines 58-68); a raised exception prints the error JSON with exit code 1
(lines 70-80). -/
def apiPost (res : Except String PipelineResponse) : ApiOutcome :=
  match res with
  | .ok r =>
    let fallbackExpl : Explanation :=
      ⟨"Unable to generate explanation.", DISCLAIMER_EN, none, none⟩
    let r2 :=
      if r.explanation = none then { r with explanation := some fallbackExpl }
      else r
    ⟨r2, 0⟩
  | .error msg => ⟨apiErrorResponse msg, 1⟩

/-- The main body of soil_ai_api.py (lines 45-80): run the pipeline,
post-process extracted_parameters, ensure an explanation exists, print; any
exception is converted to the error JSON with exit code 1. -/
def api_main (report_text district : String) (soil_type : Option String)
    (irrigation_type season language : String) (ai : AIBehavior) : ApiOutcome :=
  apiPost (convert_numeric_to_category
    (process_soil_report report_text district soil_type irrigation_type season language ai))

/-! ## Concrete service behaviours used by closed theorems -/

/-- A run in which every external AI service call fails (the pipeline is
specified to degrade gracefully in that case). -/
def aiSilent : AIBehavior := ⟨fun _ => none, none, none⟩

/-- A recommendation service that always returns the given crop list. -/
def aiCrops (crops : List String) : ℕ → Option RecResponse :=
  fun _ => some ⟨some crops, false⟩

/-- The E2E report text of the specification: a report containing the lines
pH: 6.9 and Available Nitrogen (N): 120 kg/ha. -/
def e2eReportText : String := "pH: 6.9\nAvailable Nitrogen (N): 120 kg/ha"

/-!
# Theorems

The claims of the specification, settled against the embedding above.
First a few supporting lemmas about dictionary update, crop-name
translation and the recommendation retry loop.
-/

theorem lookup_dictSet_self (k : String) (v : α) (m : List (String × α)) :
    (dictSet k v m).lookup k = some v := by
  induction m with
  | nil => simp [dictSet, List.lookup]
  | cons kv t ih =>
    obtain ⟨k2, v2⟩ := kv
    unfold dictSet
    by_cases hk : k2 = k
    · simp [hk, List.lookup]
    · simp [hk, List.lookup, beq_false_of_ne (Ne.symm hk), ih]

theorem lookup_dictSet_ne (k k2 : String) (hne : k2 ≠ k) (v : α) (m : List (String × α)) :
    (dictSet k v m).lookup k2 = m.lookup k2 := by
  induction m with
  | nil => simp [dictSet, List.lookup, beq_false_of_ne hne]
  | cons kv t ih =>
    obtain ⟨k3, v3⟩ := kv
    unfold dictSet
    by_cases hk : k3 = k
    · subst hk
      simp [List.lookup, beq_false_of_ne hne]
    · simp [hk, List.lookup, ih]

theorem lookup_condSet_ne (k k2 : String) (hne : k2 ≠ k) (o : Option ProfileEntry)
    (m : List (String × ProfileEntry)) :
    (condSet k o m).lookup k2 = m.lookup k2 := by
  cases o with
  | none => rfl
  | some e => simp [condSet, lookup_dictSet_ne k k2 hne]

theorem lookup_condSet_self (k : String) (e : ProfileEntry) (m : List (String × ProfileEntry)) :
    (condSet k (some e) m).lookup k = some (catEntry e.category e.confidence) := by
  simp [condSet, lookup_dictSet_self]

theorem lookup_enforceNPK_ne (ex : List (String × ExtractedEntry)) (p k2 : String)
    (hne : k2 ≠ p) (m : List (String × ProfileEntry)) :
    (enforceNPK ex p m).lookup k2 = m.lookup k2 := by
  unfold enforceNPK
  repeat' split
  all_goals dsimp only
  all_goals repeat' split
  all_goals first
    | rfl
    | exact lookup_dictSet_ne p k2 hne _ _

theorem enforceNPK_self_cat (ex : List (String × ExtractedEntry)) (p : String)
    (m : List (String × ProfileEntry)) (d : ExtractedEntry) (v : ℚ)
    (hd : ex.lookup p = some d) (hsrc : d.source = "report") (hv : d.value = some v) :
    ∃ e, (enforceNPK ex p m).lookup p = some e ∧
      e.category = (categorize_from_thresholds p (some v)).1 := by
  unfold enforceNPK
  rw [hd]
  simp only [hv, hsrc, reduceIte]
  by_cases hne : (m.lookup p).map ProfileEntry.category ≠
      some (categorize_from_thresholds p (some v)).1
  · rw [if_pos hne]
    cases hm : m.lookup p with
    | none => exact ⟨_, lookup_dictSet_self p _ m, rfl⟩
    | some e0 => exact ⟨_, lookup_dictSet_self p _ m, rfl⟩
  · rw [if_neg hne]
    rw [not_not] at hne
    obtain ⟨e0, he0, hcat⟩ := Option.map_eq_some'.mp hne
    exact ⟨e0, he0, hcat⟩

theorem mem_of_lookup_someStr {l : List (String × String)} {k v : String}
    (h : l.lookup k = some v) : (k, v) ∈ l := by
  obtain ⟨l1, l2, rfl, -⟩ := List.lookup_eq_some_iff.mp h
  exact List.mem_append.mpr (Or.inr (List.mem_cons_self _ _))

theorem translate_crop_idem (c : String) :
    translate_crop_name_to_english (translate_crop_name_to_english c) =
      translate_crop_name_to_english c := by
  unfold translate_crop_name_to_english
  cases h : MARATHI_CROP_MAP.lookup c with
  | none => simp [h]
  | some v =>
    simp only [h, Option.getD_some]
    have hmem : (c, v) ∈ MARATHI_CROP_MAP := mem_of_lookup_someStr h
    have hnone : ∀ p ∈ MARATHI_CROP_MAP, MARATHI_CROP_MAP.lookup p.2 = none := by decide
    simp [hnone (c, v) hmem]

theorem validate_crops_all {crops : List String} {season : String}
    (h : validate_crops_for_season crops season = true) :
    ∀ c ∈ crops, is_crop_in_season c season = true := by
  unfold validate_crops_for_season at h
  split at h
  · exact absurd h (by simp)
  · exact fun c hc => List.all_eq_true.mp h c hc

theorem recFail_done_err (isLast : Bool) (msg : String) (r : RecResult)
    (h : recFail isLast msg = .done r) : r.crop_recommendation = none := by
  unfold recFail at h
  split at h
  · injection h with h2
    rw [← h2]
  · exact absurd h (by simp)

theorem recCrops_done_crops (sp : List (String × ProfileEntry)) (season language : String)
    (crops : List String) (isLast : Bool) (r : RecResult) (cr : CropRec)
    (h : recCrops sp season language crops isLast = .done r)
    (hcr : r.crop_recommendation = some cr) :
    validate_crops_for_season (crops.map translate_crop_name_to_english) season = true ∧
    (cr.primary = crops ∨ cr.primary = crops.map translate_crop_name_to_english) ∧
    cr.season = season := by
  unfold recCrops at h
  by_cases hHI : (crops.map translate_crop_name_to_english).filter
      (fun c => should_filter_crop c (profCat sp "Nitrogen") (ocProfCat sp)) ≠ []
  · rw [if_pos hHI] at h
    rw [recFail_done_err _ _ _ h] at hcr
    exact absurd hcr (by simp)
  · rw [if_neg hHI] at h
    by_cases hval : validate_crops_for_season (crops.map translate_crop_name_to_english) season = true
    · rw [if_neg (not_not_intro hval)] at h
      injection h with h2
      have hcr2 : some (⟨(if isMarathiLang language then crops
          else crops.map translate_crop_name_to_english), season⟩ : CropRec) = some cr := by
        rw [← h2] at hcr
        exact hcr
      rw [Option.some.injEq] at hcr2
      subst hcr2
      refine ⟨hval, ?_, rfl⟩
      split
      · exact Or.inl rfl
      · exact Or.inr rfl
    · rw [if_pos hval] at h
      split at h
      · injection h with h2
        rw [← h2] at hcr
        exact absurd hcr (by simp)
      · exact absurd h (by simp)

theorem recAttempt_done_crops (sp : List (String × ProfileEntry)) (season language : String)
    (resp : Option RecResponse) (isLast : Bool) (r : RecResult) (cr : CropRec)
    (h : recAttempt sp season language resp isLast = .done r)
    (hcr : r.crop_recommendation = some cr) :
    ∃ crops,
      validate_crops_for_season (crops.map translate_crop_name_to_english) season = true ∧
      (cr.primary = crops ∨ cr.primary = crops.map translate_crop_name_to_english) ∧
      cr.season = season := by
  unfold recAttempt at h
  cases resp with
  | none =>
    rw [recFail_done_err _ _ _ h] at hcr
    exact absurd hcr (by simp)
  | some rr =>
    dsimp only at h
    by_cases hn : rr.has_numeric_soil_values = true
    · rw [if_pos hn] at h
      rw [recFail_done_err _ _ _ h] at hcr
      exact absurd hcr (by simp)
    · rw [if_neg hn] at h
      cases hcp : rr.crop_primary with
      | none =>
        rw [hcp] at h
        injection h with h2
        rw [← h2] at hcr
        exact absurd hcr (by simp)
      | some crops =>
        rw [hcp] at h
        obtain ⟨hval, hp, hs⟩ := recCrops_done_crops _ _ _ _ _ _ _ h hcr
        exact ⟨crops, hval, hp, hs⟩

theorem firstRange_mem (v : ℚ) (tbl : List (String × ℚ × ℚ)) (r : String × ℚ × ℚ)
    (h : firstRange v tbl = some r) : r ∈ tbl := by
  induction tbl with
  | nil => simp [firstRange] at h
  | cons t rest ih =>
    obtain ⟨cat, mn, mx⟩ := t
    unfold firstRange at h
    split at h
    · rw [Option.some.injEq] at h
      subst h
      exact List.mem_cons_self _ _
    · exact List.mem_cons_of_mem _ (ih h)

theorem soil_thresholds_no_unknown (k : String) (tbl : List (String × ℚ × ℚ))
    (h : SOIL_THRESHOLDS.lookup k = some tbl) : ∀ r ∈ tbl, r.1 ≠ "Unknown" := by
  have master : ∀ p ∈ SOIL_THRESHOLDS, ∀ r ∈ p.2, r.1 ≠ "Unknown" := by decide
  obtain ⟨l1, l2, heq, -⟩ := List.lookup_eq_some_iff.mp h
  have hmem : (k, tbl) ∈ SOIL_THRESHOLDS := by
    rw [heq]
    exact List.mem_append.mpr (Or.inr (List.mem_cons_self _ _))
  exact master (k, tbl) hmem

theorem categorize_covered_not_unknown (p : String) (v : ℚ)
    (hcov : thresholdCovered p v = true) :
    (categorize_from_thresholds p (some v)).1 ≠ "Unknown" := by
  unfold thresholdCovered at hcov
  unfold categorize_from_thresholds
  dsimp only
  by_cases hkey : thresholdsLookupKey p = "pH"
  · rw [if_pos hkey] at hcov ⊢
    have hb : (qlt v 0 || qlt 14 v) = false := by simpa using hcov
    unfold categorize_ph
    rw [if_neg (by simp [hb])]
    split
    · rename_i cat heq
      split at heq
      · rw [Except.ok.injEq] at heq
        subst heq
        decide
      · split at heq
        · rw [Except.ok.injEq] at heq
          subst heq
          decide
        · rw [Except.ok.injEq] at heq
          subst heq
          decide
    · rename_i a heq
      split at heq
      · simp at heq
      · split at heq <;> simp at heq
  · rw [if_neg hkey] at hcov ⊢
    cases hl : SOIL_THRESHOLDS.lookup (thresholdsLookupKey p) with
    | none =>
      simp only [hl] at hcov
      exact absurd hcov (by simp)
    | some tbl =>
      simp only [hl] at hcov ⊢
      obtain ⟨r, hr⟩ := Option.isSome_iff_exists.mp hcov
      simp only [hr]
      obtain ⟨cat, mn, mx⟩ := r
      have hcat := soil_thresholds_no_unknown _ _ hl _ (firstRange_mem v tbl _ hr)
      split
      · exact hcat
      · exact hcat

theorem recLoop_crops (sp : List (String × ProfileEntry)) (season language : String)
    (ai : ℕ → Option RecResponse) :
    ∀ remaining attempt (r : RecResult) (cr : CropRec),
      recLoop sp season language ai attempt remaining = r →
      r.crop_recommendation = some cr →
      ∃ crops,
        validate_crops_for_season (crops.map translate_crop_name_to_english) season = true ∧
        (cr.primary = crops ∨ cr.primary = crops.map translate_crop_name_to_english) ∧
        cr.season = season := by
  intro remaining
  induction remaining with
  | zero =>
    intro attempt r cr h hcr
    rw [← h] at hcr
    exact absurd hcr (by simp [recLoop])
  | succ rem ih =>
    intro attempt r cr h hcr
    unfold recLoop at h
    cases hA : recAttempt sp season language (ai attempt) (rem = 0) with
    | done r2 =>
      rw [hA] at h
      have h2 : r2 = r := h
      subst h2
      exact recAttempt_done_crops sp season language (ai attempt) _ r2 cr hA hcr
    | retry r2 =>
      rw [hA] at h
      have h2 : recLoop sp season language ai (attempt + 1) rem = r := h
      exact ih (attempt + 1) r cr h2 hcr

/-- C2: Boundary correctness of the threshold table.  Categorizing pH yields
Acidic at 6.4, Neutral at 6.5, 6.9, 7.0 and 7.5, and Alkaline at 7.6
(categorize_ph, agricultural_config.py lines 131-152); categorizing Nitrogen
yields Low at 199, Medium at 200 and 280, and High at 281
(categorize_from_thresholds, soil_ai_module.py lines 199-240). -/
theorem c2_threshold_boundaries :
    categorize_ph (mkRat 64 10) = .ok "Acidic" ∧
    categorize_ph (mkRat 65 10) = .ok "Neutral" ∧
    categorize_ph (mkRat 69 10) = .ok "Neutral" ∧
    categorize_ph 7 = .ok "Neutral" ∧
    categorize_ph (mkRat 75 10) = .ok "Neutral" ∧
    categorize_ph (mkRat 76 10) = .ok "Alkaline" ∧
    (categorize_from_thresholds "Nitrogen" (some 199)).1 = "Low" ∧
    (categorize_from_thresholds "Nitrogen" (some 200)).1 = "Medium" ∧
    (categorize_from_thresholds "Nitrogen" (some 280)).1 = "Medium" ∧
    (categorize_from_thresholds "Nitrogen" (some 281)).1 = "High" :=
  ⟨rfl, rfl, rfl, rfl, rfl, rfl, rfl, rfl, rfl, rfl⟩

/-- C1, counterexample: with no pre_categorized_soil_profile argument, a
measured pH reading (source report, value 6.9, threshold category Neutral)
is returned with whatever category the mocked adversarial AI classification
service supplied, because the enforcement loop of classify_soil_profile
explicitly skips pH.  This refutes the claim as stated for the parameter pH. -/
theorem c1_ph_passthrough_counterexample :
    classify_soil_profile [("pH", reportValueEntry (mkRat 69 10) "")] "Pune" none "Rain-fed"
        none [("pH", catEntry "Alkaline" (mkRat 6 10))] =
      .ok [("pH", catEntry "Alkaline" (mkRat 6 10))] ∧
    categorize_ph (mkRat 69 10) = .ok "Neutral" ∧
    ("Alkaline" : String) ≠ "Neutral" :=
  ⟨rfl, rfl, by decide⟩

/-- C3, counterexample: the report text Available Nitrogen (N): 199.5 kg/ha
is extracted as a measured reading (source report, value 199.5), yet the
soil profile of process_soil_report assigns Nitrogen the category Unknown,
because 199.5 falls in the gap between the Low range (0, 199) and the
Medium range (200, 280) of the threshold table.  This refutes the claim
that a measured numeric value in the parameter domain is never Unknown. -/
theorem c3_gap_value_counterexample :
    (process_soil_report "Available Nitrogen (N): 199.5 kg/ha" "Pune" none
      "Rain-fed" "Kharif" "english" aiSilent).extracted_parameters.map
        (fun e => e.Nitrogen.source) = some "report" ∧
    (process_soil_report "Available Nitrogen (N): 199.5 kg/ha" "Pune" none
      "Rain-fed" "Kharif" "english" aiSilent).extracted_parameters.map
        (fun e => e.Nitrogen.value) = some (some (mkRat 399 2)) ∧
    (process_soil_report "Available Nitrogen (N): 199.5 kg/ha" "Pune" none
      "Rain-fed" "Kharif" "english" aiSilent).soil_profile.map
        (fun sp => profCat sp "Nitrogen") = some "Unknown" :=
  ⟨rfl, rfl, rfl⟩

/-- C4: evaluation at the failing input.  The pipeline profile built by
process_soil_report stores Organic Carbon under the key OrganicCarbon with
category Poor, but generate_agronomy_recommendations reads the keys
Organic Carbon and Organic_Carbon only, sees Unknown, and returns Onion
(a high-input crop that should_filter_crop would drop for a Poor organic
carbon) in the primary list of a Rabi recommendation. -/
theorem c4_oc_key_mismatch_failing_run :
    profCat (build_soil_profile (fillMissing (hard_parse_soil_values
      "Available Nitrogen 250 kg/ha Organic Carbon 0.3 %"))) "OrganicCarbon" = "Poor" ∧
    ocProfCat (build_soil_profile (fillMissing (hard_parse_soil_values
      "Available Nitrogen 250 kg/ha Organic Carbon 0.3 %"))) = "Unknown" ∧
    should_filter_crop "Onion" (profCat (build_soil_profile (fillMissing
      (hard_parse_soil_values "Available Nitrogen 250 kg/ha Organic Carbon 0.3 %")))
      "Nitrogen") "Poor" = true ∧
    generate_agronomy_recommendations
        (build_soil_profile (fillMissing (hard_parse_soil_values
          "Available Nitrogen 250 kg/ha Organic Carbon 0.3 %")))
        "Pune" "Rabi" "Rain-fed" none "english" (aiCrops ["Onion"]) 2 =
      .ok ⟨none, some ⟨["Onion"], "Rabi"⟩⟩ :=
  ⟨rfl, rfl, rfl, rfl⟩

/-- C7: evaluation at the failing input.  With Nitrogen Low, an AI response
listing Onion together with the acceptable Kharif crop Soybean makes every
attempt raise the fail-fast error, because the check runs over the
pre-filter crop list; the call returns an error result even though the
fertility filter had already removed Onion and no forbidden crop survived
filtering. -/
theorem c7_failfast_on_filtered_crop_failing_run :
    should_filter_crop "Onion" "Low" "Unknown" = true ∧
    should_filter_crop "Soybean" "Low" "Unknown" = false ∧
    is_crop_in_season "Soybean" "Kharif" = true ∧
    generate_agronomy_recommendations
        [("pH", catEntry "Neutral" (mkRat 95 100)), ("Nitrogen", catEntry "Low" (mkRat 95 100))]
        "Pune" "Kharif" "Rain-fed" none "english" (aiCrops ["Onion", "Soybean"]) 2 =
      .ok ⟨some "FAIL-FAST: High-input crops not filtered", none⟩ :=
  ⟨rfl, rfl, rfl, rfl⟩

/-- C6: evaluation at the failing input.  For the specification's E2E report
text, hard_parse_soil_values misses the pH line (its pattern accepts no
colon after pH), so the profile categorizes pH as Unknown and the summary
reports pH data as unavailable instead of Soil pH is neutral; the Nitrogen
half of the scenario behaves as claimed (120 is Low, and the summary says
so). -/
theorem c6_e2e_measured_values_failing_run :
    (process_soil_report e2eReportText "Pune" none "Rain-fed" "Kharif" "english"
      aiSilent).extracted_parameters.map (fun e => e.pH.source) = some "missing" ∧
    (process_soil_report e2eReportText "Pune" none "Rain-fed" "Kharif" "english"
      aiSilent).extracted_parameters.map (fun e => e.Nitrogen.value) = some (some 120) ∧
    (process_soil_report e2eReportText "Pune" none "Rain-fed" "Kharif" "english"
      aiSilent).soil_profile.map (fun sp => profCat sp "pH") = some "Unknown" ∧
    (process_soil_report e2eReportText "Pune" none "Rain-fed" "Kharif" "english"
      aiSilent).soil_profile.map (fun sp => profCat sp "Nitrogen") = some "Low" ∧
    (process_soil_report e2eReportText "Pune" none "Rain-fed" "Kharif" "english"
      aiSilent).explanation.map
        (fun e => containsSubstr e.summary "Nitrogen levels are low") = some true ∧
    (process_soil_report e2eReportText "Pune" none "Rain-fed" "Kharif" "english"
      aiSilent).explanation.map
        (fun e => containsSubstr e.summary "Soil pH is neutral") = some false :=
  ⟨rfl, rfl, rfl, rfl, rfl, rfl⟩

/-- C8: evaluation at the failing input.  For an empty report text,
process_soil_report itself returns success with every parameter missing,
every category Unknown and an explanation present; but the API wrapper's
convert_numeric_to_category compares the None value of the first parameter
with a float (TypeError), so the printed JSON is the error response with
success false and exit code 1, not the successful pipeline response. -/
theorem c8_empty_report_api_failing_run :
    (process_soil_report "" "Pune" none "Rain-fed" "Kharif" "marathi" aiSilent).success = true ∧
    (process_soil_report "" "Pune" none "Rain-fed" "Kharif" "marathi"
      aiSilent).extracted_parameters.map (fun e =>
        [e.pH.source, e.Nitrogen.source, e.Phosphorus.source,
         e.Potassium.source, e.OrganicCarbon.source]) =
      some ["missing", "missing", "missing", "missing", "missing"] ∧
    (process_soil_report "" "Pune" none "Rain-fed" "Kharif" "marathi"
      aiSilent).soil_profile.map (fun sp => sp.map (fun kv => kv.2.category)) =
      some ["Unknown", "Unknown", "Unknown", "Unknown", "Unknown"] ∧
    (process_soil_report "" "Pune" none "Rain-fed" "Kharif" "marathi"
      aiSilent).explanation.isSome = true ∧
    (api_main "" "Pune" none "Rain-fed" "Kharif" "marathi" aiSilent).exitCode = 1 ∧
    (api_main "" "Pune" none "Rain-fed" "Kharif" "marathi" aiSilent).printed.success = false ∧
    (api_main "" "Pune" none "Rain-fed" "Kharif" "marathi"
      aiSilent).printed.explanation.isSome = true :=
  ⟨rfl, rfl, rfl, rfl, rfl, rfl, rfl⟩

/-- C10: AI noninterference of the active pipeline.  For every report text
and request context, two runs of process_soil_report under arbitrarily
different behaviours of the external AI services produce identical
extracted parameters, an identical soil profile and an identical
explanation summary: those fields are computed by the rule-based parser,
the threshold categorizer and rule-based string assembly alone. -/
theorem c10_ai_noninterference (report_text district : String) (soil_type : Option String)
    (irrigation_type season language : String) (ai1 ai2 : AIBehavior) :
    (process_soil_report report_text district soil_type irrigation_type season language ai1).extracted_parameters =
      (process_soil_report report_text district soil_type irrigation_type season language ai2).extracted_parameters ∧
    (process_soil_report report_text district soil_type irrigation_type season language ai1).soil_profile =
      (process_soil_report report_text district soil_type irrigation_type season language ai2).soil_profile ∧
    (process_soil_report report_text district soil_type irrigation_type season language ai1).explanation.map Explanation.summary =
      (process_soil_report report_text district soil_type irrigation_type season language ai2).explanation.map Explanation.summary := by
  unfold process_soil_report
  split
  · exact ⟨rfl, rfl, rfl⟩
  · exact ⟨rfl, rfl, rfl⟩

/-- C9: an explanation object is present in the response on every path of
the pipeline and of the API wrapper: the missing-required-inputs error
response, the success response, and both wrapper branches (post-processing
success and the exception handler) all carry one. -/
theorem c9_explanation_always_present (report_text district : String) (soil_type : Option String)
    (irrigation_type season language : String) (ai : AIBehavior) :
    (process_soil_report report_text district soil_type irrigation_type season language ai).explanation.isSome = true ∧
    (api_main report_text district soil_type irrigation_type season language ai).printed.explanation.isSome = true := by
  have hpost : ∀ res : Except String PipelineResponse,
      (apiPost res).printed.explanation.isSome = true := by
    intro res
    cases res with
    | error msg => rfl
    | ok r =>
      unfold apiPost
      cases hre : r.explanation with
      | none => simp [hre]
      | some e => simp [hre]
  constructor
  · unfold process_soil_report
    split <;> rfl
  · exact hpost _

/-- C5: season adherence.  For every soil profile, request context,
language, recommendation-service behaviour and number of retries, any
result of generate_agronomy_recommendations for season Kharif that carries
a crop_recommendation has every primary crop inside the Kharif crop list
(after crop-name translation to English, as the source validates), and in
particular Wheat, a Rabi crop, never appears in the primary list. -/
theorem c5_kharif_season_adherence (sp : List (String × ProfileEntry))
    (district irrigation_type : String) (soil_type : Option String) (language : String)
    (ai : ℕ → Option RecResponse) (max_retries : ℕ) (r : RecResult) (cr : CropRec)
    (hok : generate_agronomy_recommendations sp district "Kharif" irrigation_type
      soil_type language ai max_retries = .ok r)
    (hcr : r.crop_recommendation = some cr) :
    (∀ c ∈ cr.primary, is_crop_in_season (translate_crop_name_to_english c) "Kharif" = true) ∧
    "Wheat" ∉ cr.primary := by
  unfold generate_agronomy_recommendations at hok
  split at hok
  · rw [Except.ok.injEq] at hok
    rw [← hok] at hcr
    exact absurd hcr (by simp)
  · split at hok
    · exact absurd hok (by simp)
    · rw [Except.ok.injEq] at hok
      obtain ⟨crops, hval, hp, -⟩ := recLoop_crops sp "Kharif" language ai max_retries 0 r cr hok hcr
      have hall := validate_crops_all hval
      have hmem : ∀ c ∈ cr.primary,
          is_crop_in_season (translate_crop_name_to_english c) "Kharif" = true := by
        intro c hc
        cases hp with
        | inl h1 =>
          rw [h1] at hc
          exact hall _ (List.mem_map_of_mem translate_crop_name_to_english hc)
        | inr h2 =>
          rw [h2] at hc
          obtain ⟨c0, hc0, rfl⟩ := List.mem_map.mp hc
          rw [translate_crop_idem]
          exact hall _ (List.mem_map_of_mem translate_crop_name_to_english hc0)
      refine ⟨hmem, fun hW => ?_⟩
      have := hmem "Wheat" hW
      rw [show translate_crop_name_to_english "Wheat" = "Wheat" from rfl] at this
      exact absurd this (by decide)

/-- C3, amended: never Unknown if measured AND the value is covered by the
threshold table.  For every filled extraction whose reading for a parameter
has source report and a numeric value lying inside one of the parameter's
threshold ranges (pH inside 0..14), the soil profile built by
process_soil_report assigns that parameter the threshold category, which is
never Unknown.  (The counterexample shows the restriction to covered values
is necessary: table gaps such as Nitrogen 199.5 yield Unknown.) -/
theorem c3_never_unknown_amended (e5 : Extracted5) (p : String) (d : ExtractedEntry) (v : ℚ)
    (hp : (p, d) ∈ [("pH", e5.pH), ("Nitrogen", e5.Nitrogen), ("Phosphorus", e5.Phosphorus),
      ("Potassium", e5.Potassium), ("OrganicCarbon", e5.OrganicCarbon)])
    (hsrc : d.source = "report") (hv : d.value = some v)
    (hcov : thresholdCovered p v = true) :
    profCat (build_soil_profile e5) p = (categorize_from_thresholds p (some v)).1 ∧
    profCat (build_soil_profile e5) p ≠ "Unknown" := by
  have hbuild : ∀ q : String, (buildProfileEntry q d).category =
      (categorize_from_thresholds q (some v)).1 := by
    intro q
    unfold buildProfileEntry
    rw [hv]
    simp only [hsrc, reduceIte]
  simp only [List.mem_cons, List.not_mem_nil, or_false, Prod.mk.injEq] at hp
  rcases hp with ⟨rfl, hdd⟩ | ⟨rfl, hdd⟩ | ⟨rfl, hdd⟩ | ⟨rfl, hdd⟩ | ⟨rfl, hdd⟩ <;>
    subst hdd
  · have hcat : profCat (build_soil_profile e5) "pH" =
        (buildProfileEntry "pH" e5.pH).category := rfl
    rw [hcat, hbuild]
    exact ⟨rfl, categorize_covered_not_unknown _ _ hcov⟩
  · have hcat : profCat (build_soil_profile e5) "Nitrogen" =
        (buildProfileEntry "Nitrogen" e5.Nitrogen).category := rfl
    rw [hcat, hbuild]
    exact ⟨rfl, categorize_covered_not_unknown _ _ hcov⟩
  · have hcat : profCat (build_soil_profile e5) "Phosphorus" =
        (buildProfileEntry "Phosphorus" e5.Phosphorus).category := rfl
    rw [hcat, hbuild]
    exact ⟨rfl, categorize_covered_not_unknown _ _ hcov⟩
  · have hcat : profCat (build_soil_profile e5) "Potassium" =
        (buildProfileEntry "Potassium" e5.Potassium).category := rfl
    rw [hcat, hbuild]
    exact ⟨rfl, categorize_covered_not_unknown _ _ hcov⟩
  · have hcat : profCat (build_soil_profile e5) "OrganicCarbon" =
        (buildProfileEntry "OrganicCarbon" e5.OrganicCarbon).category := rfl
    rw [hcat, hbuild]
    exact ⟨rfl, categorize_covered_not_unknown _ _ hcov⟩

/-- C3 amended witness: a measured 120 kg/ha Nitrogen reading parsed from a
report text gets the category Low, not Unknown, in the pipeline profile. -/
theorem c3_never_unknown_amended_witness :
    profCat (build_soil_profile (fillMissing (hard_parse_soil_values
        "Available Nitrogen 120 kg/ha"))) "Nitrogen" =
      (categorize_from_thresholds "Nitrogen" (some 120)).1 ∧
    profCat (build_soil_profile (fillMissing (hard_parse_soil_values
        "Available Nitrogen 120 kg/ha"))) "Nitrogen" ≠ "Unknown" :=
  c3_never_unknown_amended (fillMissing (hard_parse_soil_values "Available Nitrogen 120 kg/ha"))
    "Nitrogen" (reportValueEntry 120 "kg/ha") 120 (by decide) rfl rfl rfl

/-- C5 witness: a concrete run.  With a Medium-nitrogen profile and a
service that recommends Soybean, the returned primary list is all-Kharif
and Wheat-free. -/
theorem c1_enforcement_amended (extracted : List (String × ExtractedEntry))
    (district : String) (soil_type : Option String) (irrigation_type : String)
    (pre : Option (List (String × ProfileEntry))) (aiProfile sp : List (String × ProfileEntry))
    (hres : classify_soil_profile extracted district soil_type irrigation_type pre aiProfile =
      .ok sp) :
    (∀ p ∈ (["Nitrogen", "Phosphorus", "Potassium", "Organic Carbon"] : List String),
      ∀ d v, extracted.lookup p = some d → d.source = "report" → d.value = some v →
        ∃ e, sp.lookup p = some e ∧ e.category = (categorize_from_thresholds p (some v)).1) ∧
    (∀ pcp lph d v, pre = some pcp → pcp.lookup "pH" = some lph →
      extracted.lookup "pH" = some d → d.source = "report" → d.value = some v →
      categorize_ph v = .ok lph.category →
      ∃ e, sp.lookup "pH" = some e ∧ categorize_ph v = .ok e.category) := by
  unfold classify_soil_profile at hres
  split at hres
  · exact absurd hres (by simp)
  · rw [Except.ok.injEq] at hres
    subst hres
    constructor
    · intro p hp d v hd hsrc hv
      simp only [List.mem_cons, List.not_mem_nil, or_false] at hp
      rcases hp with rfl | rfl | rfl | rfl
      · simp only [lookup_enforceNPK_ne extracted "Potassium" "Nitrogen" (by decide),
          lookup_enforceNPK_ne extracted "Phosphorus" "Nitrogen" (by decide)]
        exact enforceNPK_self_cat extracted "Nitrogen" _ d v hd hsrc hv
      · simp only [lookup_enforceNPK_ne extracted "Potassium" "Phosphorus" (by decide)]
        exact enforceNPK_self_cat extracted "Phosphorus" _ d v hd hsrc hv
      · exact enforceNPK_self_cat extracted "Potassium" _ d v hd hsrc hv
      · simp only [lookup_enforceNPK_ne extracted "Potassium" "Organic Carbon" (by decide),
          lookup_enforceNPK_ne extracted "Phosphorus" "Organic Carbon" (by decide),
          lookup_enforceNPK_ne extracted "Nitrogen" "Organic Carbon" (by decide),
          lookup_condSet_ne "Organic_Carbon" "Organic Carbon" (by decide)]
        simp only [hd, Option.some_bind, preCatNonPH, hv, hsrc, reduceIte]
        exact ⟨_, lookup_condSet_self "Organic Carbon" _ _, rfl⟩
    · intro pcp lph d v hpre hlph hd hsrc hv hph
      subst hpre
      simp only [hlph]
      simp only [lookup_enforceNPK_ne extracted "Potassium" "pH" (by decide),
        lookup_enforceNPK_ne extracted "Phosphorus" "pH" (by decide),
        lookup_enforceNPK_ne extracted "Nitrogen" "pH" (by decide),
        lookup_condSet_ne "Organic_Carbon" "pH" (by decide),
        lookup_condSet_ne "Organic Carbon" "pH" (by decide),
        lookup_condSet_ne "Potassium" "pH" (by decide),
        lookup_condSet_ne "Phosphorus" "pH" (by decide),
        lookup_condSet_ne "Nitrogen" "pH" (by decide),
        lookup_dictSet_self]
      exact ⟨_, rfl, hph⟩

/-- C1 amended witness: a measured Nitrogen reading of 120 kg/ha is returned
as Low by a successful classify_soil_profile call even when the mocked AI
classification service reports High. -/
theorem c1_enforcement_amended_witness :
    ∃ e, (([("Nitrogen", catEntry "Low" (mkRat 95 100))] : List (String × ProfileEntry)).lookup
        "Nitrogen" = some e) ∧
      e.category = (categorize_from_thresholds "Nitrogen" (some 120)).1 :=
  (c1_enforcement_amended [("Nitrogen", reportValueEntry 120 "kg/ha")] "Pune" none "Rain-fed"
      none [("Nitrogen", catEntry "High" 1)] _ rfl).1
    "Nitrogen" (by decide) (reportValueEntry 120 "kg/ha") 120 rfl rfl rfl

theorem c5_kharif_season_adherence_witness :
    (∀ c ∈ (["Soybean"] : List String),
      is_crop_in_season (translate_crop_name_to_english c) "Kharif" = true) ∧
    "Wheat" ∉ (["Soybean"] : List String) :=
  c5_kharif_season_adherence [("Nitrogen", catEntry "Medium" 1)] "Pune" "Rain-fed" none
    "english" (aiCrops ["Soybean"]) 2 ⟨none, some ⟨["Soybean"], "Kharif"⟩⟩
    ⟨["Soybean"], "Kharif"⟩ rfl rfl

end Farmchain
